import Mathlib

/-!
Verification development for the Process Simulation backend
(src/main.py, src/schemas.py).

The Python source is shallowly embedded in Lean:
  - Pydantic models (schemas.py) become structures.
  - The Mongo collections become Lean lists held in a `Store` structure;
    a call to an endpoint is a function from the store (plus the request
    body) to the new store and a response.
  - `db` being unconfigured (None in Python) is modelled by `Option Store`.
  - Timestamps are natural numbers drawn from a per-store clock that the
    (spec-modelled) `create_document` helper advances on every insert.
  - A JSONResponse error is `Resp.err status body`; an uncaught Python
    exception, which the framework default handler turns into a 500
    response, is `Resp.exn 500 name`.
-/

namespace ProcessSim

/-- Value stored in the open-ended `meta` map of an ActivityLog.
Decimal literals from the seed data (e.g. a review score 0.92) are embedded
as `dec units hundredths` to stay inside exact arithmetic. -/
inductive MetaVal where
  | str (s : String)
  | nat (n : Nat)
  | dec (units hundredths : Nat)
  deriving Repr, DecidableEq

/-- The `meta` field of schemas.ActivityLog: an open-ended key/value map,
embedded as an association list. -/
abbrev Meta := List (String × MetaVal)

/-- schemas.py, class ActivityLog (the caller-supplied fields; the
store-assigned `_id` and `created_at` live in `LogDoc`). -/
structure ActivityLog where
  process_key : String
  stage_key : String
  item_key : String
  type : String
  message : String
  actor : String
  meta : Option Meta
  deriving Repr, DecidableEq

/-- An ActivityLog document as stored in the `activitylog` collection:
the schema fields plus the store-assigned `_id` and the `created_at`
timestamp set by `create_document`. -/
structure LogDoc where
  id : Nat
  log : ActivityLog
  created_at : Nat
  deriving Repr, DecidableEq

/-- schemas.py, class ProcessItem. -/
structure ProcessItem where
  key : String
  title : String
  optional : Bool
  deriving Repr, DecidableEq

/-- schemas.py, class ProcessStage. -/
structure ProcessStage where
  key : String
  title : String
  description : Option String
  items : List ProcessItem
  deriving Repr, DecidableEq

/-- schemas.py, class Process. -/
structure Process where
  key : String
  name : String
  stages : List ProcessStage
  deriving Repr, DecidableEq

/-- A Process document as stored in the `process` collection: the schema
fields plus the store-assigned `_id` and `created_at`. -/
structure ProcDoc where
  id : Nat
  proc : Process
  created_at : Nat
  deriving Repr, DecidableEq

/-- The document store: the two collections used by main.py, plus the
id counter and clock that the (spec-modelled) `create_document` advances. -/
structure Store where
  processes : List ProcDoc
  activitylog : List LogDoc
  nextId : Nat
  clock : Nat
  deriving Repr, DecidableEq

/-- Modelled from the spec: `create_document` of the absent database.py
module, for the `process` collection. Per the comment at main.py line 138
and spec section 4.2 it assigns `created_at` from the current time at
insertion and returns the store-assigned id; insertion appends in natural
order, and `created_at` is monotonically non-decreasing in insertion
order (spec section 3), modelled by an increasing clock. -/
def create_document_process (st : Store) (p : Process) : Store × Nat :=
  ({ st with
      processes := st.processes ++ [{ id := st.nextId, proc := p, created_at := st.clock }],
      nextId := st.nextId + 1,
      clock := st.clock + 1 }, st.nextId)

/-- Modelled from the spec: `create_document` of the absent database.py
module, for the `activitylog` collection (same behaviour as
`create_document_process`). -/
def create_document_log (st : Store) (l : ActivityLog) : Store × Nat :=
  ({ st with
      activitylog := st.activitylog ++ [{ id := st.nextId, log := l, created_at := st.clock }],
      nextId := st.nextId + 1,
      clock := st.clock + 1 }, st.nextId)

/-- main.py lines 25-57: the DEFAULT_PROCESS constant. -/
def DEFAULT_PROCESS : Process :=
  { key := "default",
    name := "Product Delivery Lifecycle",
    stages := [
      { key := "initiation",
        title := "Initiation",
        description := some "Kick-off and context setup",
        items := [
          { key := "requirements", title := "Requirement Document", optional := false },
          { key := "concept", title := "Concept Design Document", optional := false },
          { key := "sqp", title := "Software Quality Plan", optional := false },
          { key := "poc", title := "Optional POC Scope", optional := true }
        ] },
      { key := "review",
        title := "Review & Approval",
        description := some "Assignments, downloads, reviews and decisions",
        items := [
          { key := "doc_review", title := "Document Review", optional := false }
        ] },
      { key := "delivery",
        title := "Delivery",
        description := some "Handover and sign-off",
        items := [
          { key := "handover", title := "Final Handover", optional := false }
        ] }
    ] }

/-- Response of an endpoint: `ok` is a 200 with the given payload,
`err` is a JSONResponse built explicitly by the handler with an
`error` body field, and `exn` is an uncaught Python exception of the
given name, which the framework default error handling surfaces as a
response with the given status (500 for any unhandled exception). -/
inductive Resp (α : Type) where
  | ok (v : α)
  | err (status : Nat) (error : String)
  | exn (status : Nat) (name : String)
  deriving Repr, DecidableEq

/-- HTTP status of a response. -/
def respStatus : Resp α → Nat
  | .ok _ => 200
  | .err s _ => s
  | .exn s _ => s

/-- A status in the 4xx range (client error). -/
def isClientError (s : Nat) : Bool :=
  400 ≤ s && s < 500

/-- Python truthiness of an optional string (None and the empty string
are falsy). -/
def truthy : Option String → Bool
  | none => false
  | some s => !(s == "")

/-- Python `x or d` for an optional string x and a string default. -/
def pyStrOr (x : Option String) (d : String) : String :=
  match x with
  | none => d
  | some s => if s == "" then d else s

/-- main.py lines 59-61: SeedResponse. -/
structure SeedResponse where
  seeded : Bool
  logs_seeded : Bool
  deriving Repr, DecidableEq

/-- main.py lines 79-122: the mock events of `_seed_mock_logs`, one entry
per (stage_key, item_key) with its list of (type, message, actor, meta)
tuples. The unused local lists `actors` and `admins` (lines 72-76) are
dead code and not embedded. -/
def mockEvents : List (String × String × List (String × String × String × Option Meta)) :=
  [("initiation", "requirements", [
      ("upload", "requester uploaded BRD_v1.2.pdf", "olivia.r",
        some [("filename", .str "BRD_v1.2.pdf"), ("size", .nat 523441)]),
      ("assignment", "admin assigned liam.k to review", "admin",
        some [("assignee", .str "liam.k")]),
      ("download", "liam.k downloaded the document", "liam.k", none),
      ("review", "liam.k reviewed the document", "liam.k",
        some [("score", .dec 0 92)]),
      ("note", "qa.lead left a note: please clarify scope for module X", "qa.lead",
        some [("note", .str "please clarify scope for module X")]),
      ("decision", "qa.lead made a decision", "qa.lead",
        some [("decision", .str "approve with comments")])]),
   ("initiation", "concept", [
      ("upload", "requester uploaded Concept_Figma_Link.txt", "ava.m",
        some [("filename", .str "Concept_Figma_Link.txt")]),
      ("assignment", "admin assigned sophia.j to review", "pm.admin",
        some [("assignee", .str "sophia.j")]),
      ("download", "sophia.j downloaded the document", "sophia.j", none),
      ("review", "sophia.j reviewed the document", "sophia.j",
        some [("score", .dec 0 88)]),
      ("note", "pm.admin left a note: explore alt color palette", "pm.admin",
        some [("note", .str "explore alt color palette")])]),
   ("initiation", "sqp", [
      ("upload", "requester uploaded SQP_v0.9.docx", "noah.t",
        some [("filename", .str "SQP_v0.9.docx")]),
      ("assignment", "compliance.admin assigned jack.chen to review", "compliance.admin",
        some [("assignee", .str "jack.chen")]),
      ("download", "jack.chen downloaded the document", "jack.chen", none),
      ("note", "jack.chen left a note: need threat model section", "jack.chen",
        some [("note", .str "need threat model section")]),
      ("review", "jack.chen reviewed the document", "jack.chen",
        some [("score", .dec 0 75)]),
      ("decision", "compliance.admin made a decision", "compliance.admin",
        some [("decision", .str "changes requested")])]),
   ("initiation", "poc", [
      ("upload", "requester uploaded POC_outline.md", "mia.p",
        some [("filename", .str "POC_outline.md")]),
      ("assignment", "admin assigned lucas.b to review", "admin",
        some [("assignee", .str "lucas.b")]),
      ("download", "lucas.b downloaded the document", "lucas.b", none),
      ("note", "lucas.b left a note: optional, but useful for risk burn‑down", "lucas.b",
        some [("note", .str "optional, but useful for risk burn‑down")])]),
   ("review", "doc_review", [
      ("assignment", "qa.lead assigned amelia.v to review", "qa.lead",
        some [("assignee", .str "amelia.v")]),
      ("download", "amelia.v downloaded the document", "amelia.v", none),
      ("review", "amelia.v reviewed the document", "amelia.v",
        some [("score", .dec 0 97)]),
      ("decision", "qa.lead made a decision", "qa.lead",
        some [("decision", .str "approved")]),
      ("note", "qa.lead left a note: proceeding to delivery", "qa.lead",
        some [("note", .str "proceeding to delivery")])]),
   ("delivery", "handover", [
      ("upload", "requester uploaded handover_package.zip", "ethan.s",
        some [("filename", .str "handover_package.zip"), ("size", .nat 5234102)]),
      ("download", "pm.admin downloaded the document", "pm.admin", none),
      ("note", "pm.admin left a note: scheduling training", "pm.admin",
        some [("note", .str "scheduling training")]),
      ("decision", "pm.admin made a decision", "pm.admin",
        some [("decision", .str "signed off")])])]

/-- main.py lines 148-152: the extra_notes of `_seed_mock_logs`, tuples of
(stage_key, item_key, note). -/
def extra_notes : List (String × String × String) :=
  [("initiation", "requirements", "risk: data migration complexity"),
   ("initiation", "concept", "consider accessibility WCAG 2.2"),
   ("delivery", "handover", "need runbook appendix")]

/-- ActivityLog built from one mockEvents tuple (main.py lines 129-137). -/
def mkMockLog (sk ik : String) (a : String × String × String × Option Meta) : ActivityLog :=
  { process_key := DEFAULT_PROCESS.key, stage_key := sk, item_key := ik,
    type := a.1, message := a.2.1, actor := a.2.2.1, meta := a.2.2.2 }

/-- ActivityLog built from one extra_notes tuple (main.py lines 154-162). -/
def mkExtraNote (e : String × String × String) : ActivityLog :=
  { process_key := DEFAULT_PROCESS.key, stage_key := e.1, item_key := e.2.1,
    type := "note", message := "note: " ++ e.2.2, actor := "observer",
    meta := some [("note", MetaVal.str e.2.2)] }

/-- Sequential insertion of a list of logs via create_document. -/
def insertAll (st : Store) (logs : List ActivityLog) : Store :=
  logs.foldl (fun s l => (create_document_log s l).1) st

/-- main.py lines 64-164: `_seed_mock_logs`, on a configured store (the
`if not db` guard at line 66 is the `db = none` case, handled by the
callers of this model). Lines 141-144 attempt to backdate `created_at`
with `update_one`, but the filter passed to the inner `find_one` embeds a
bound method (`db["activitylog"].create_index`), which cannot be encoded
as a document; the call raises inside the `try` and the `except` swallows
it (spec section 9 records this: the backdating silently fails and leaves
all records with insertion timestamps). It is therefore embedded as a
no-op and every record keeps the `created_at` set by create_document. -/
def _seed_mock_logs (st : Store) : Store × Bool :=
  if !((st.activitylog.filter
        (fun d => d.log.process_key == DEFAULT_PROCESS.key)).take 1).isEmpty then
    (st, false)
  else
    let st1 := mockEvents.foldl
      (fun s g => insertAll s (g.2.2.map (mkMockLog g.1 g.2.1))) st
    let st2 := insertAll st1 (extra_notes.map mkExtraNote)
    (st2, true)

/-- main.py lines 167-176: GET /api/seed. When db is unconfigured the
handler still answers 200 with seeded = logs_seeded = false (the two
`if db` guards). -/
def seed_process (db : Option Store) : Option Store × SeedResponse :=
  match db with
  | none => (none, { seeded := false, logs_seeded := false })
  | some st =>
    let existing := (st.processes.filter
        (fun d => d.proc.key == DEFAULT_PROCESS.key)).take 1
    if existing.isEmpty then
      let st1 := (create_document_process st DEFAULT_PROCESS).1
      let r := _seed_mock_logs st1
      (some r.1, { seeded := true, logs_seeded := r.2 })
    else
      let r := _seed_mock_logs st
      (some r.1, { seeded := false, logs_seeded := r.2 })

/-- The Process document returned by GET /api/process: the stored fields
with `_id` popped (main.py line 192). The spec-modelled create_document
also sets an `updated_at` equal to `created_at` at insertion and never
touched afterwards; it is omitted from the embedding. -/
structure ProcessOut where
  proc : Process
  created_at : Nat
  deriving Repr, DecidableEq

/-- Conversion of a stored process document to the response shape
(`doc.pop("_id", None)`, main.py line 192). -/
def popId (d : ProcDoc) : ProcessOut :=
  { proc := d.proc, created_at := d.created_at }

/-- main.py lines 182-193: GET /api/process. The final branch is the
Python path where `find_one` after the auto-seed still returned None, so
`doc.pop` would raise AttributeError; it is provably unreachable. -/
def get_process (db : Option Store) : Option Store × Resp ProcessOut :=
  match db with
  | none => (none, .err 500 "Database not configured")
  | some st =>
    match st.processes.find? (fun d => d.proc.key == DEFAULT_PROCESS.key) with
    | some doc => (some st, .ok (popId doc))
    | none =>
      let st1 := (create_document_process st DEFAULT_PROCESS).1
      match st1.processes.find? (fun d => d.proc.key == DEFAULT_PROCESS.key) with
      | some doc => (some st1, .ok (popId doc))
      | none => (some st1, .exn 500 "AttributeError")

/-- main.py lines 195-198: UploadResponse. -/
structure UploadResponse where
  ok : Bool
  filename : String
  item_key : String
  deriving Repr, DecidableEq

/-- main.py lines 200-215: POST /api/upload. File bytes are not stored;
only the multipart filename reaches the log. The Form default
actor = "user" is applied by the transport layer, so actor arrives here
already resolved. -/
def upload_file (db : Option Store) (item_key stage_key filename actor : String) :
    Option Store × Resp UploadResponse :=
  match db with
  | none => (none, .err 500 "Database not configured")
  | some st =>
    let log : ActivityLog :=
      { process_key := DEFAULT_PROCESS.key, stage_key := stage_key,
        item_key := item_key, type := "upload",
        message := actor ++ " uploaded " ++ filename, actor := actor,
        meta := some [("filename", MetaVal.str filename)] }
    (some (create_document_log st log).1,
     .ok { ok := true, filename := filename, item_key := item_key })

/-- main.py lines 217-221: AssignmentBody. -/
structure AssignmentBody where
  stage_key : String
  item_key : String
  assignee : String
  actor : String := "admin"
  deriving Repr, DecidableEq

/-- Response body of POST /api/assign and POST /api/action. -/
structure OkResponse where
  ok : Bool
  deriving Repr, DecidableEq

/-- main.py lines 223-237: POST /api/assign. -/
def assign_reviewer (db : Option Store) (body : AssignmentBody) :
    Option Store × Resp OkResponse :=
  match db with
  | none => (none, .err 500 "Database not configured")
  | some st =>
    let log : ActivityLog :=
      { process_key := DEFAULT_PROCESS.key, stage_key := body.stage_key,
        item_key := body.item_key, type := "assignment",
        message := body.actor ++ " assigned " ++ body.assignee ++ " to review",
        actor := body.actor,
        meta := some [("assignee", MetaVal.str body.assignee)] }
    (some (create_document_log st log).1, .ok { ok := true })

/-- main.py lines 239-244: ActionBody. -/
structure ActionBody where
  stage_key : String
  item_key : String
  action : String
  note : Option String := none
  actor : String := "assignee"
  deriving Repr, DecidableEq

/-- main.py lines 251-256: the message dict literal, as an association
list in the same order; `body.note or ""` is pyStrOr. -/
def actionMessages (body : ActionBody) : List (String × String) :=
  [("download", body.actor ++ " downloaded the document"),
   ("review", body.actor ++ " reviewed the document"),
   ("decision", body.actor ++ " made a decision"),
   ("note", body.actor ++ " left a note: " ++ pyStrOr body.note "")]

/-- main.py lines 246-267: POST /api/action. A failing `assert` at line
250 raises AssertionError, which no handler catches, so the framework
default error handling answers 500; the store is not touched on that
path. The KeyError branch mirrors the dict lookup at line 256 and is
unreachable once the assert passed. -/
def action (db : Option Store) (body : ActionBody) : Option Store × Resp OkResponse :=
  match db with
  | none => (none, .err 500 "Database not configured")
  | some st =>
    if body.action ∈ ["download", "review", "decision", "note"] then
      match List.lookup body.action (actionMessages body) with
      | some message =>
        let log : ActivityLog :=
          { process_key := DEFAULT_PROCESS.key, stage_key := body.stage_key,
            item_key := body.item_key, type := body.action, message := message,
            actor := body.actor,
            meta := if truthy body.note
              then some [("note", MetaVal.str (pyStrOr body.note ""))] else none }
        (some (create_document_log st log).1, .ok { ok := true })
      | none => (some st, .exn 500 "KeyError")
    else
      (some st, .exn 500 "AssertionError")

/-- The Mongo filter built by GET /api/logs (main.py lines 276-280):
process_key always constrained, stage_key and item_key only when truthy. -/
structure Query where
  process_key : String
  stage_key : Option String
  item_key : Option String
  deriving Repr, DecidableEq

/-- Whether a stored activitylog document matches the filter. -/
def matchesQuery (q : Query) (d : LogDoc) : Bool :=
  d.log.process_key == q.process_key
  && (match q.stage_key with | none => true | some s => d.log.stage_key == s)
  && (match q.item_key with | none => true | some s => d.log.item_key == s)

/-- Ordering of `.sort("created_at", -1)`: most recent first. -/
def createdDesc (a b : LogDoc) : Prop :=
  b.created_at ≤ a.created_at

instance : DecidableRel createdDesc :=
  fun a b => Nat.decLe b.created_at a.created_at

instance : IsTotal LogDoc createdDesc :=
  ⟨fun a b => Nat.le_total b.created_at a.created_at⟩

instance : IsTrans LogDoc createdDesc :=
  ⟨fun _ _ _ h1 h2 => Nat.le_trans h2 h1⟩

/-- main.py lines 272-286: GET /api/logs. The store returns matching
documents sorted by created_at descending; the embedding sorts the
filtered natural-order list (none of the properties proved below depends
on how the store breaks ties between equal timestamps). The response
keeps every stored field, with `_id` renamed to `id`, which `LogDoc`
already carries. -/
def get_logs (db : Option Store) (stage_key item_key : Option String) :
    Option Store × Resp (List LogDoc) :=
  match db with
  | none => (none, .err 500 "Database not configured")
  | some st =>
    let q0 : Query := { process_key := DEFAULT_PROCESS.key, stage_key := none, item_key := none }
    let q1 := if truthy stage_key then { q0 with stage_key := stage_key } else q0
    let q2 := if truthy item_key then { q1 with item_key := item_key } else q1
    let logs := (st.activitylog.filter (matchesQuery q2)).insertionSort createdDesc
    (some st, .ok logs)

/-- Activitylog collection of an optional store (empty when unconfigured). -/
def logsOf : Option Store → List LogDoc
  | none => []
  | some st => st.activitylog

/-- Records appended to the activitylog relative to a starting store:
whatever the resulting store holds beyond the old length. -/
def appendedLogs (st : Store) (db : Option Store) : List ActivityLog :=
  ((logsOf db).drop st.activitylog.length).map (fun d => d.log)

/-- Payload of a logs response (empty on error). -/
def logsList : Option Store × Resp (List LogDoc) → List LogDoc
  | (_, .ok l) => l
  | _ => []

/-- Number of process documents whose key is "default". -/
def countDefaultProcess : Option Store → Nat
  | none => 0
  | some st => st.processes.countP (fun d => d.proc.key == "default")

/-- A store with both collections empty, used as a concrete test state. -/
def emptyStore : Store :=
  { processes := [], activitylog := [], nextId := 0, clock := 0 }

/-- A concrete stored log record, used as a concrete test state. -/
def sampleLog : LogDoc :=
  { id := 0,
    log := { process_key := "default", stage_key := "initiation",
             item_key := "requirements", type := "note",
             message := "qa.lead left a note: please clarify scope",
             actor := "qa.lead",
             meta := some [("note", MetaVal.str "please clarify scope")] },
    created_at := 0 }

/-- A store holding exactly one activity log record. -/
def sampleStore : Store :=
  { processes := [], activitylog := [sampleLog], nextId := 1, clock := 1 }

/-!  Supporting lemmas shared by the claim theorems. -/

theorem pyStrOr_empty_getD (x : Option String) : pyStrOr x "" = x.getD "" := by
  cases x with
  | none => rfl
  | some s =>
    simp only [pyStrOr, Option.getD_some]
    split
    · next h => simp only [beq_iff_eq] at h; exact h.symm
    · rfl

theorem insertAll_processes : ∀ (logs : List ActivityLog) (st : Store),
    (insertAll st logs).processes = st.processes
  | [], _ => rfl
  | a :: as, st => insertAll_processes as ((create_document_log st a).1)

theorem insertAll_appends : ∀ (logs : List ActivityLog) (st : Store),
    ∃ t, (insertAll st logs).activitylog = st.activitylog ++ t
  | [], st => ⟨[], by simp [insertAll]⟩
  | a :: as, st => by
    obtain ⟨t, ht⟩ := insertAll_appends as ((create_document_log st a).1)
    refine ⟨{ id := st.nextId, log := a, created_at := st.clock } :: t, ?_⟩
    show (insertAll ((create_document_log st a).1) as).activitylog = _
    rw [ht]
    simp [create_document_log]

theorem mockFold_processes :
    ∀ (gs : List (String × String × List (String × String × String × Option Meta))) (st : Store),
    (gs.foldl (fun s g => insertAll s (g.2.2.map (mkMockLog g.1 g.2.1))) st).processes
      = st.processes
  | [], _ => rfl
  | g :: tl, st => by
    show (tl.foldl _ (insertAll st (g.2.2.map (mkMockLog g.1 g.2.1)))).processes = _
    rw [mockFold_processes tl, insertAll_processes]

theorem mockFold_appends :
    ∀ (gs : List (String × String × List (String × String × String × Option Meta))) (st : Store),
    ∃ t, (gs.foldl (fun s g => insertAll s (g.2.2.map (mkMockLog g.1 g.2.1))) st).activitylog
      = st.activitylog ++ t
  | [], st => ⟨[], by simp⟩
  | g :: tl, st => by
    obtain ⟨t1, ht1⟩ := insertAll_appends (g.2.2.map (mkMockLog g.1 g.2.1)) st
    obtain ⟨t2, ht2⟩ := mockFold_appends tl (insertAll st (g.2.2.map (mkMockLog g.1 g.2.1)))
    exact ⟨t1 ++ t2, by
      show (tl.foldl _ (insertAll st (g.2.2.map (mkMockLog g.1 g.2.1)))).activitylog = _
      rw [ht2, ht1, List.append_assoc]⟩

theorem seed_mock_logs_processes (st : Store) :
    ((_seed_mock_logs st).1).processes = st.processes := by
  unfold _seed_mock_logs
  split
  · rfl
  · simp only
    rw [insertAll_processes, mockFold_processes]

theorem seed_mock_logs_appends (st : Store) :
    ∃ t, ((_seed_mock_logs st).1).activitylog = st.activitylog ++ t := by
  unfold _seed_mock_logs
  split
  · exact ⟨[], by simp⟩
  · simp only
    obtain ⟨t1, ht1⟩ := mockFold_appends mockEvents st
    obtain ⟨t2, ht2⟩ := insertAll_appends (extra_notes.map mkExtraNote)
      (mockEvents.foldl (fun s g => insertAll s (g.2.2.map (mkMockLog g.1 g.2.1))) st)
    exact ⟨t1 ++ t2, by rw [ht2, ht1, List.append_assoc]⟩

/-!  Claim theorems. -/

/-- C1: for every valid action value (download, review, decision, note)
and every actor and metadata, POST /api/action appends exactly one record
whose message is the exact section 4.2 template, with the note rendered
as the empty string when omitted; POST /api/upload appends
"actor uploaded filename" and POST /api/assign appends
"actor assigned assignee to review". -/
theorem C1_message_templates (st : Store)
    (sk ik actor assignee filename : String) (note : Option String) :
    ((appendedLogs st (action (some st)
        { stage_key := sk, item_key := ik, action := "download",
          note := note, actor := actor }).1).map (fun l => l.message)
      = [actor ++ " downloaded the document"])
    ∧ ((appendedLogs st (action (some st)
        { stage_key := sk, item_key := ik, action := "review",
          note := note, actor := actor }).1).map (fun l => l.message)
      = [actor ++ " reviewed the document"])
    ∧ ((appendedLogs st (action (some st)
        { stage_key := sk, item_key := ik, action := "decision",
          note := note, actor := actor }).1).map (fun l => l.message)
      = [actor ++ " made a decision"])
    ∧ ((appendedLogs st (action (some st)
        { stage_key := sk, item_key := ik, action := "note",
          note := note, actor := actor }).1).map (fun l => l.message)
      = [actor ++ " left a note: " ++ note.getD ""])
    ∧ ((appendedLogs st (upload_file (some st) ik sk filename actor).1).map
        (fun l => l.message) = [actor ++ " uploaded " ++ filename])
    ∧ ((appendedLogs st (assign_reviewer (some st)
        { stage_key := sk, item_key := ik, assignee := assignee,
          actor := actor }).1).map (fun l => l.message)
      = [actor ++ " assigned " ++ assignee ++ " to review"]) := by
  refine ⟨?_, ?_, ?_, ?_, ?_, ?_⟩ <;>
    simp +decide [action, actionMessages, upload_file, assign_reviewer,
      appendedLogs, logsOf, create_document_log, List.lookup,
      List.drop_left, pyStrOr_empty_getD]

/-- C2 counterexample: at the concrete invalid action "publish" the call
does fail and stores nothing, but it surfaces as a 500 server error (the
assert raises AssertionError, which the framework default handling turns
into a 500 response), not as a client error, so the claim as stated is
false. -/
theorem C2_counterexample_not_client_error :
    (action (some emptyStore)
        { stage_key := "s", item_key := "i", action := "publish" })
      = (some emptyStore, Resp.exn 500 "AssertionError")
    ∧ respStatus (action (some emptyStore)
        { stage_key := "s", item_key := "i", action := "publish" }).2 = 500
    ∧ isClientError (respStatus (action (some emptyStore)
        { stage_key := "s", item_key := "i", action := "publish" }).2) = false := by
  refine ⟨?_, rfl, rfl⟩
  rfl

/-- C2 (amended): for every request whose action value lies outside
{download, review, decision, note}, POST /api/action fails via the
AssertionError of the validation assert, surfaced by the framework
default handling as a 500 server error, and no record is stored: the
store is returned unchanged. -/
theorem C2_invalid_type_rejected_no_write (st : Store) (body : ActionBody)
    (h : body.action ∉ (["download", "review", "decision", "note"] : List String)) :
    action (some st) body = (some st, Resp.exn 500 "AssertionError") := by
  simp only [action]
  rw [if_neg h]

/-- C2 witness: the amended theorem applied at the concrete invalid
action "publish" on the empty store. -/
theorem C2_invalid_type_rejected_no_write_witness :
    (("publish" : String) ∉ (["download", "review", "decision", "note"] : List String))
    ∧ action (some emptyStore)
        { stage_key := "s", item_key := "i", action := "publish" }
      = (some emptyStore, Resp.exn 500 "AssertionError") :=
  ⟨by decide,
   C2_invalid_type_rejected_no_write emptyStore
     { stage_key := "s", item_key := "i", action := "publish" } (by decide)⟩

/-- C3: for every store state and every optional stage/item filter, the
sequence returned by GET /api/logs is sorted by created_at descending:
any earlier element has created_at greater or equal to any later one. -/
theorem C3_logs_sorted_descending (db : Option Store) (sk ik : Option String) :
    (logsList (get_logs db sk ik)).Pairwise
      (fun a b => b.created_at ≤ a.created_at) := by
  cases db with
  | none => simp [get_logs, logsList]
  | some st =>
    simp only [get_logs, logsList]
    exact List.sorted_insertionSort createdDesc _

/-- C5: every event returned by the filtered logs query is also returned
by the unfiltered query over the same store: filtering never returns an
event outside the unfiltered result set. -/
theorem C5_filtered_subset_of_unfiltered (db : Option Store)
    (sk ik : Option String) (e : LogDoc)
    (h : e ∈ logsList (get_logs db sk ik)) :
    e ∈ logsList (get_logs db none none) := by
  cases db with
  | none => simp [get_logs, logsList] at h
  | some st =>
    cases htr1 : truthy sk <;> cases htr2 : truthy ik <;>
      simp [get_logs, logsList, htr1, htr2, matchesQuery, Bool.and_eq_true,
        List.mem_insertionSort, List.mem_filter] at h ⊢ <;>
      tauto

/-- C5 witness: the subset theorem applied to the concrete one-record
sample store with a stage filter. -/
theorem C5_filtered_subset_of_unfiltered_witness :
    sampleLog ∈ logsList (get_logs (some sampleStore) (some "initiation") none)
    ∧ sampleLog ∈ logsList (get_logs (some sampleStore) none none) :=
  ⟨by decide,
   C5_filtered_subset_of_unfiltered (some sampleStore) (some "initiation") none
     sampleLog (by decide)⟩

/-- C9: supplying the empty string for the stage or item filter of
GET /api/logs behaves identically to omitting that parameter; the
empty-string filter is dropped (Python truthiness), never matched
against. -/
theorem C9_empty_string_filter_dropped (db : Option Store) (sk ik : Option String) :
    get_logs db (some "") ik = get_logs db none ik
    ∧ get_logs db sk (some "") = get_logs db sk none := by
  constructor <;> cases db <;> rfl

/-- The default process key is the constant "default". -/
theorem DEFAULT_PROCESS_key : DEFAULT_PROCESS.key = "default" := rfl

/-- C6: calling GET /api/process twice in sequence with no interleaving
writes returns identical Process documents, and the second call leaves
the store unchanged (the first call materializes the default definition
if absent). -/
theorem C6_get_process_idempotent (st : Store) :
    (get_process (get_process (some st)).1).2 = (get_process (some st)).2
    ∧ (get_process (get_process (some st)).1).1 = (get_process (some st)).1 := by
  cases hf : st.processes.find? (fun d => d.proc.key == DEFAULT_PROCESS.key) with
  | some doc => simp [get_process, hf]
  | none =>
    have h2 : ((create_document_process st DEFAULT_PROCESS).1).processes.find?
        (fun d => d.proc.key == DEFAULT_PROCESS.key)
        = some { id := st.nextId, proc := DEFAULT_PROCESS, created_at := st.clock } := by
      simp [create_document_process, List.find?_append, hf]
    simp [get_process, hf, h2]

/-- C7: starting from a store with no "default" Process document, two
sequential calls of GET /api/seed leave exactly one such document: the
first reports seeded = true, the second seeded = false. -/
theorem C7_seed_twice_single_default (st : Store)
    (h : countDefaultProcess (some st) = 0) :
    (seed_process (some st)).2.seeded = true
    ∧ (seed_process (seed_process (some st)).1).2.seeded = false
    ∧ countDefaultProcess (seed_process (seed_process (some st)).1).1 = 1 := by
  have h0 : ∀ d ∈ st.processes, ¬(d.proc.key == "default") = true :=
    List.countP_eq_zero.mp h
  have hfil : st.processes.filter (fun d => d.proc.key == DEFAULT_PROCESS.key) = [] := by
    rw [List.filter_eq_nil_iff]
    intro a ha
    rw [DEFAULT_PROCESS_key]
    exact h0 a ha
  have hseed1 : seed_process (some st)
      = (some (_seed_mock_logs (create_document_process st DEFAULT_PROCESS).1).1,
         { seeded := true,
           logs_seeded := (_seed_mock_logs (create_document_process st DEFAULT_PROCESS).1).2 }) := by
    simp [seed_process, hfil]
  have hfil2 : ((_seed_mock_logs (create_document_process st DEFAULT_PROCESS).1).1).processes.filter
      (fun d => d.proc.key == DEFAULT_PROCESS.key)
      = [{ id := st.nextId, proc := DEFAULT_PROCESS, created_at := st.clock }] := by
    rw [seed_mock_logs_processes]
    simp [create_document_process, List.filter_append, hfil]
  have hseed2 : seed_process (seed_process (some st)).1
      = (some (_seed_mock_logs (_seed_mock_logs (create_document_process st DEFAULT_PROCESS).1).1).1,
         { seeded := false,
           logs_seeded := (_seed_mock_logs (_seed_mock_logs (create_document_process st DEFAULT_PROCESS).1).1).2 }) := by
    rw [hseed1]
    simp [seed_process, hfil2]
  refine ⟨by rw [hseed1], by rw [hseed2], ?_⟩
  rw [hseed2]
  simp only [countDefaultProcess] at h ⊢
  rw [seed_mock_logs_processes, seed_mock_logs_processes]
  simp [create_document_process, List.countP_append, h, DEFAULT_PROCESS_key]

/-- C7 witness: the seed theorem applied to the concrete sample store,
which holds no Process document. -/
theorem C7_seed_twice_single_default_witness :
    countDefaultProcess (some sampleStore) = 0
    ∧ ((seed_process (some sampleStore)).2.seeded = true
       ∧ (seed_process (seed_process (some sampleStore)).1).2.seeded = false
       ∧ countDefaultProcess (seed_process (seed_process (some sampleStore)).1).1 = 1) :=
  ⟨by decide, C7_seed_twice_single_default sampleStore (by decide)⟩

/-- C4: every ActivityLog row is immutable after creation: each public
endpoint (seed, process, upload, assign, action, logs) leaves the
existing activitylog records in place unchanged and at most appends new
records at the end. -/
theorem C4_activitylog_append_only (st : Store)
    (ik sk filename actor : String) (ab : AssignmentBody) (bd : ActionBody)
    (osk oik : Option String) :
    (∃ t, logsOf (seed_process (some st)).1 = st.activitylog ++ t)
    ∧ (∃ t, logsOf (get_process (some st)).1 = st.activitylog ++ t)
    ∧ (∃ t, logsOf (upload_file (some st) ik sk filename actor).1 = st.activitylog ++ t)
    ∧ (∃ t, logsOf (assign_reviewer (some st) ab).1 = st.activitylog ++ t)
    ∧ (∃ t, logsOf (action (some st) bd).1 = st.activitylog ++ t)
    ∧ (∃ t, logsOf (get_logs (some st) osk oik).1 = st.activitylog ++ t) := by
  refine ⟨?_, ?_, ?_, ?_, ?_, ⟨[], by simp [get_logs, logsOf]⟩⟩
  · simp only [seed_process]
    split
    · obtain ⟨t, ht⟩ := seed_mock_logs_appends (create_document_process st DEFAULT_PROCESS).1
      exact ⟨t, ht⟩
    · exact seed_mock_logs_appends st
  · cases hf : st.processes.find? (fun d => d.proc.key == DEFAULT_PROCESS.key) with
    | some doc => exact ⟨[], by simp [get_process, hf, logsOf]⟩
    | none =>
      refine ⟨[], ?_⟩
      simp [get_process, hf, logsOf, create_document_process, List.find?_append]
  · exact ⟨_, rfl⟩
  · exact ⟨_, rfl⟩
  · simp only [action]
    split
    · split
      · exact ⟨_, rfl⟩
      · exact ⟨[], by simp [logsOf]⟩
    · exact ⟨[], by simp [logsOf]⟩

/-- C8: when the backing store is unavailable, each of the process,
upload, assign, action and logs endpoints answers a 500 with the body
error "Database not configured" and performs no write (there is no store
to write to, and the call returns immediately with no retry). -/
theorem C8_store_unavailable_500 (ik sk filename actor : String)
    (ab : AssignmentBody) (bd : ActionBody) (osk oik : Option String) :
    get_process none = (none, Resp.err 500 "Database not configured")
    ∧ upload_file none ik sk filename actor
      = (none, Resp.err 500 "Database not configured")
    ∧ assign_reviewer none ab = (none, Resp.err 500 "Database not configured")
    ∧ action none bd = (none, Resp.err 500 "Database not configured")
    ∧ get_logs none osk oik = (none, Resp.err 500 "Database not configured") :=
  ⟨rfl, rfl, rfl, rfl, rfl⟩

/-- C10: every record appended through the public upload, assign and
action endpoints carries process_key "default"; no write endpoint takes a
process key as input. -/
theorem C10_writes_use_default_process_key (st : Store)
    (ik sk filename actor : String) (ab : AssignmentBody) (bd : ActionBody) :
    ((appendedLogs st (upload_file (some st) ik sk filename actor).1).all
      (fun l => l.process_key == "default") = true)
    ∧ ((appendedLogs st (assign_reviewer (some st) ab).1).all
      (fun l => l.process_key == "default") = true)
    ∧ ((appendedLogs st (action (some st) bd).1).all
      (fun l => l.process_key == "default") = true) := by
  refine ⟨?_, ?_, ?_⟩
  · simp [upload_file, appendedLogs, logsOf, create_document_log,
      List.drop_left, DEFAULT_PROCESS_key]
  · simp [assign_reviewer, appendedLogs, logsOf, create_document_log,
      List.drop_left, DEFAULT_PROCESS_key]
  · simp only [action]
    split
    · split
      · simp [appendedLogs, logsOf, create_document_log, List.drop_left,
          DEFAULT_PROCESS_key]
      · simp [appendedLogs, logsOf, List.drop_length]
    · simp [appendedLogs, logsOf, List.drop_length]

end ProcessSim
